import Mathlib

/-!
Verification of the MQTT dashboard relay (`dashboard.py` / `publisher.py`).

The relay core lives in `dashboard.py`:
* `mqtt_on_message` parses the inbound payload as JSON, classifies the
  topic (`ack/` prefix versus sensor topic), enqueues hop events into the
  module-level `event_q`, updates the `latest` snapshot dict, publishes an
  acknowledgement and records a `PendingPublish` under the broker-assigned
  `mid` in `userdata['pending_publishes']`;
* `on_publish` (the bus confirmation callback in `start_mqtt`) pops the
  `mid` from `pending_publishes` and, when found, enqueues the fourth hop
  event;
* `stream` serves each HTTP viewer a loop of `event_q.get()` over the one
  shared `queue.Queue`.

We embed these shallowly: Python JSON values become the inductive `Json`
(`null` doubles as Python `None`, exactly as the `json` module maps them),
the dicts become association lists with Python-dict update semantics, and
each callback becomes a pure function returning the events it enqueued, the
bus messages it published, the log lines it printed, the new state, and the
exception it raised (if any).
-/

set_option autoImplicit false

namespace Dashboard

/-- Python values produced by `json.loads` (plus Python `None`, which the
`json` module identifies with JSON `null`). Numbers are modelled as
integers; no relay code path inspects a numeric payload value. -/
inductive Json where
  | null : Json
  | bool : Bool → Json
  | num : Int → Json
  | str : String → Json
  | arr : List Json → Json
  | obj : List (String × Json) → Json

/-- Structural (Python `==`-style) equality on `Json` values. -/
def Json.beq : Json → Json → Bool
  | .null, .null => true
  | .bool a, .bool b => a == b
  | .num a, .num b => a == b
  | .str a, .str b => a == b
  | .arr [], .arr [] => true
  | .arr (x :: xs), .arr (y :: ys) => Json.beq x y && Json.beq (.arr xs) (.arr ys)
  | .obj [], .obj [] => true
  | .obj ((k, v) :: fs), .obj ((l, w) :: gs) =>
      k == l && Json.beq v w && Json.beq (.obj fs) (.obj gs)
  | _, _ => false

instance : BEq Json := ⟨Json.beq⟩

/-- Python `dict.get(key)`: the stored value, or `None` when the key is
absent. Since the `json` module decodes JSON `null` to Python `None`,
`Json.null` is the faithful result for a missing key. -/
def dictGet (fields : List (String × Json)) (key : String) : Json :=
  match fields.lookup key with
  | some v => v
  | none => Json.null

/-- Whether a Python value may be used as a dict key (`dict` and `list`
are unhashable; using one as a key raises `TypeError`). -/
def hashable : Json → Bool
  | .arr _ => false
  | .obj _ => false
  | _ => true

/-- Python `str(v)` for the values that can reach the f-string
`f"ack/{sensor_id}"` in `mqtt_on_message`. -/
def pyStr : Json → String
  | .null => "None"
  | .bool true => "True"
  | .bool false => "False"
  | .num n => toString n
  | .str s => s
  | .arr _ => "<list>"
  | .obj _ => "<dict>"

/-- Python-dict assignment `m[k] = v` on an association list: replace the
first binding of `k` in place, or append a new binding at the end
(insertion order, as CPython dicts keep it). -/
def setKey {α β : Type} [BEq α] (m : List (α × β)) (k : α) (v : β) : List (α × β) :=
  match m with
  | [] => [(k, v)]
  | (k', v') :: rest =>
      if k' == k then (k', v) :: rest else (k', v') :: setKey rest k v

/-- Python `m.pop(k, None)`: the removed value (if any) and the remaining
map. -/
def popKey {α β : Type} [BEq α] (m : List (α × β)) (k : α) :
    Option β × List (α × β) :=
  match m with
  | [] => (none, [])
  | (k', v) :: rest =>
      if k' == k then (some v, rest)
      else
        let r := popKey rest k
        (r.1, (k', v) :: r.2)

/-- A `pending_publishes` entry: `{'topic': ..., 'payload': ..., 'ts': ...}`
recorded at dashboard.py line 80. -/
structure PendingPublish where
  topic : String
  payload : Json
  ts : Nat

/-- One event enqueued into `event_q`. Optional keys (`subscriber`,
`publisher`, `note`) are present only on the hop events that set them. -/
structure RelayEvent where
  direction : String
  topic : String
  payload : Json
  ts : Nat
  subscriber : Option String
  publisher : Option String
  note : Option String

/-- The `print` calls of the relay, by call site and arguments (we model
which log fires with which data, not CPython's exact `repr` text). -/
inductive LogLine where
  | malformed (topic : String)
  | brokerToPublisher (topic : String) (payload : Json)
  | publish (topic : String) (payload : Json)
  | deliver (topic : String) (payload : Json)
  | ackPublish (topic : String) (payload : Json)
  | brokerAccepted (mid : Nat) (topic : String) (payload : Json)

/-- Python `s.startswith(p)`: `p` is a prefix of `s`, character by
character. -/
def pyStartsWith (s p : String) : Bool := p.data.isPrefixOf s.data

/-- Topic classification: `topic.startswith('ack/')` at dashboard.py
line 55. -/
inductive TopicClass where
  | ackTopic : TopicClass
  | sensorTopic : TopicClass
deriving DecidableEq

/-- The classifier used by `mqtt_on_message` (dashboard.py line 55). -/
def classify (topic : String) : TopicClass :=
  if pyStartsWith topic "ack/" then .ackTopic else .sensorTopic

/-- Everything one call of `mqtt_on_message` does:
* `emitted`: the events it `put` on `event_q`, in order;
* `published`: the `(topic, payload)` pairs it passed to `client.publish`;
* `latest` / `pending`: the post-state of the two dicts;
* `exn`: the uncaught exception (`none` when the call returns normally);
* `logs`: its `print` lines. -/
structure MsgResult where
  emitted : List RelayEvent
  published : List (String × Json)
  latest : List (Json × Json)
  pending : List (Nat × PendingPublish)
  exn : Option String
  logs : List LogLine

/-- Shallow embedding of `mqtt_on_message` (dashboard.py lines 46–83).

`clock k` is the value of the k-th `int(time.time()*1000)` call in the
body (line 52, then lines 71, 80, 82 on the sensor branch); `publishMid`
is `info.mid` from the bus client, `none` when reading `.mid` raised
(lines 74–78); `rawPayload` is `json.loads(msg.payload.decode())`, `none`
when decoding or parsing raised (lines 47–51). -/
def mqtt_on_message (clock : Nat → Nat) (publishMid : Option Nat)
    (latest : List (Json × Json)) (pending : List (Nat × PendingPublish))
    (topic : String) (rawPayload : Option Json) : MsgResult :=
  match rawPayload with
  | none =>
      -- lines 49–51: the except branch logs and returns
      { emitted := [], published := [], latest := latest, pending := pending,
        exn := none, logs := [.malformed topic] }
  | some payload =>
      let ts := clock 0
      if classify topic = .ackTopic then
        -- lines 55–59
        { emitted := [{ direction := "broker->publisher", topic := topic,
                        payload := payload, ts := ts, subscriber := none,
                        publisher := none, note := none }],
          published := [], latest := latest, pending := pending,
          exn := none, logs := [.brokerToPublisher topic payload] }
      else
        -- lines 61–65: the first two hop events are enqueued unconditionally
        let e1 : RelayEvent :=
          { direction := "publisher->broker", topic := topic, payload := payload,
            ts := ts, subscriber := none, publisher := none, note := none }
        let e2 : RelayEvent :=
          { direction := "broker->subscriber", topic := topic, payload := payload,
            ts := ts, subscriber := some "dashboard", publisher := none,
            note := none }
        match payload with
        | .obj fields =>
            -- line 67: sensor_id = payload.get('sensor')
            let sensor_id := dictGet fields "sensor"
            if hashable sensor_id then
              -- line 68: latest[sensor_id] = payload
              let latest' := setKey latest sensor_id payload
              -- lines 70–71
              let ack_topic := "ack/" ++ pyStr sensor_id
              let ack_msg : Json :=
                .obj [("origId", dictGet fields "id"), ("ts", .num (clock 1)),
                      ("from", .str "dashboard")]
              -- lines 73–80
              let pending' :=
                match publishMid with
                | some mid =>
                    setKey pending mid
                      { topic := ack_topic, payload := ack_msg, ts := clock 2 }
                | none => pending
              -- line 82
              let e3 : RelayEvent :=
                { direction := "subscriber->broker", topic := ack_topic,
                  payload := ack_msg, ts := clock 3, subscriber := none,
                  publisher := some "dashboard", note := none }
              { emitted := [e1, e2, e3],
                published := [(ack_topic, ack_msg)],
                latest := latest', pending := pending', exn := none,
                logs := [.publish topic payload, .deliver topic payload,
                         .ackPublish ack_topic ack_msg] }
            else
              -- line 68 raises TypeError: unhashable type used as dict key
              { emitted := [e1, e2], published := [], latest := latest,
                pending := pending, exn := some "TypeError",
                logs := [.publish topic payload, .deliver topic payload] }
        | _ =>
            -- line 67 raises AttributeError: non-dict payload has no .get
            { emitted := [e1, e2], published := [], latest := latest,
              pending := pending, exn := some "AttributeError",
              logs := [.publish topic payload, .deliver topic payload] }

/-- Result of one call of the `on_publish` confirmation callback. -/
structure PubResult where
  emitted : List RelayEvent
  pending : List (Nat × PendingPublish)
  exn : Option String
  logs : List LogLine

/-- Shallow embedding of the `on_publish` callback defined inside
`start_mqtt` (dashboard.py lines 93–97): pop the `mid`; if an entry was
found, enqueue the confirmation hop event. (The Python guard is
`if info:`; a popped entry is a three-key dict, hence always truthy, so
the guard is equivalent to `info is not None`.) -/
def on_publish (clock : Nat → Nat) (pending : List (Nat × PendingPublish))
    (mid : Nat) : PubResult :=
  match popKey pending mid with
  | (some info, rest) =>
      { emitted := [{ direction := "broker->subscriber", topic := info.topic,
                      payload := info.payload, ts := clock 0,
                      subscriber := none, publisher := none,
                      note := some "broker accepted publish" }],
        pending := rest, exn := none,
        logs := [.brokerAccepted mid info.topic info.payload] }
  | (none, rest) =>
      { emitted := [], pending := rest, exn := none, logs := [] }

/-- State of the viewer-facing side: the one shared `event_q` (dashboard.py
line 27) plus a record of which stream session received which event, in
delivery order. -/
structure FanoutState where
  queue : List RelayEvent
  delivered : List (Nat × RelayEvent)

/-- The events stream session `sid` has received, in order. -/
def sessionView (d : List (Nat × RelayEvent)) (sid : Nat) : List RelayEvent :=
  (d.filter (fun p => p.1 == sid)).map (fun p => p.2)

/-- One step of the consumer side of `stream` (dashboard.py lines
111–118): each viewer session runs `item = event_q.get()` in a loop, and a
`get` removes the head of the one shared queue and hands it to that
session alone. `Queue.get()` blocks on an empty queue, so there is no step
from an empty queue. -/
inductive ConsumeStep : FanoutState → FanoutState → Prop
  | get (sid : Nat) (e : RelayEvent) (rest : List RelayEvent)
      (d : List (Nat × RelayEvent)) :
      ConsumeStep ⟨e :: rest, d⟩ ⟨rest, d ++ [(sid, e)]⟩

/-- `pop(k, None)` on a map without key `k` returns `None` and leaves the
map unchanged. -/
theorem popKey_eq_of_not_mem {α β : Type} [BEq α] [LawfulBEq α]
    (m : List (α × β)) (k : α) (h : k ∉ m.map Prod.fst) :
    popKey m k = (none, m) := by
  induction m with
  | nil => rfl
  | cons p rest ih =>
      obtain ⟨k', v⟩ := p
      simp only [List.map_cons, List.mem_cons] at h
      push_neg at h
      have hne : (k' == k) = false := by
        simp only [beq_eq_false_iff_ne, ne_eq]
        exact fun hh => h.1 hh.symm
      simp [popKey, hne, ih h.2]

/-- After `pop(k, None)` on a map with no duplicate keys, `k` is no longer
a key of the map. -/
theorem popKey_key_not_mem {α β : Type} [BEq α] [LawfulBEq α]
    (m : List (α × β)) (k : α) (h : (m.map Prod.fst).Nodup) :
    k ∉ (popKey m k).2.map Prod.fst := by
  induction m with
  | nil => simp [popKey]
  | cons p rest ih =>
      obtain ⟨k', v⟩ := p
      simp only [List.map_cons, List.nodup_cons] at h
      by_cases hkk : (k' == k) = true
      · have hk : k' = k := eq_of_beq hkk
        subst hk
        simpa [popKey, hkk] using h.1
      · have hne : (k' == k) = false := by
          simpa using hkk
        have hkne : k ≠ k' := by
          intro hh
          exact hkk (by simp [hh])
        simp only [popKey, hne, Bool.false_eq_true, if_false, List.map_cons,
          List.mem_cons]
        push_neg
        exact ⟨hkne, ih h.2⟩

/-- The pending map after `on_publish` is the popped map. -/
theorem on_publish_pending (clock : Nat → Nat)
    (pending : List (Nat × PendingPublish)) (mid : Nat) :
    (on_publish clock pending mid).pending = (popKey pending mid).2 := by
  unfold on_publish
  rcases hp : popKey pending mid with ⟨r, rest⟩
  cases r <;> simp

/-- `on_publish` on a miss: nothing emitted, the (unchanged) popped map
kept, no log, no exception. -/
theorem on_publish_of_popKey_none (clock : Nat → Nat)
    (pending rest : List (Nat × PendingPublish)) (mid : Nat)
    (h : popKey pending mid = (none, rest)) :
    on_publish clock pending mid =
      { emitted := [], pending := rest, exn := none, logs := [] } := by
  unfold on_publish
  rw [h]

/-- Claim C1: for every inbound message on a non-ack topic whose payload
parses as a JSON object (a valid SensorReading, so its `sensor` value is a
hashable Python value), `mqtt_on_message` enqueues exactly three
RelayEvents, in order publisher->broker, broker->subscriber,
subscriber->broker, none of which is a confirmation event, and submits
exactly one Acknowledgement whose `origId` is the reading's `id` field. -/
theorem sensor_message_three_events_one_ack (clock : Nat → Nat)
    (publishMid : Option Nat) (latest : List (Json × Json))
    (pending : List (Nat × PendingPublish)) (topic : String)
    (fields : List (String × Json))
    (hTopic : pyStartsWith topic "ack/" = false)
    (hSensor : hashable (dictGet fields "sensor") = true) :
    (mqtt_on_message clock publishMid latest pending topic
        (some (Json.obj fields))).emitted.map RelayEvent.direction =
      ["publisher->broker", "broker->subscriber", "subscriber->broker"] ∧
    (∀ e ∈ (mqtt_on_message clock publishMid latest pending topic
        (some (Json.obj fields))).emitted, e.note = none) ∧
    (mqtt_on_message clock publishMid latest pending topic
        (some (Json.obj fields))).published =
      [("ack/" ++ pyStr (dictGet fields "sensor"),
        Json.obj [("origId", dictGet fields "id"), ("ts", Json.num (clock 1)),
                  ("from", Json.str "dashboard")])] := by
  simp [mqtt_on_message, classify, hTopic, hSensor]

/-- The concrete SensorReading fields used by the witnesses below. -/
def fields1 : List (String × Json) :=
  [("id", Json.str "a1"), ("sensor", Json.str "s7")]

theorem sensor_message_three_events_one_ack_witness :
    pyStartsWith "home/livingroom/temperature" "ack/" = false ∧
    hashable (dictGet fields1 "sensor") = true ∧
    ((mqtt_on_message (fun _ => 1000) (some 1) [] []
        "home/livingroom/temperature"
        (some (Json.obj fields1))).emitted.map RelayEvent.direction =
      ["publisher->broker", "broker->subscriber", "subscriber->broker"] ∧
    (∀ e ∈ (mqtt_on_message (fun _ => 1000) (some 1) [] []
        "home/livingroom/temperature"
        (some (Json.obj fields1))).emitted, e.note = none) ∧
    (mqtt_on_message (fun _ => 1000) (some 1) [] []
        "home/livingroom/temperature"
        (some (Json.obj fields1))).published =
      [("ack/" ++ pyStr (dictGet fields1 "sensor"),
        Json.obj [("origId", dictGet fields1 "id"),
          ("ts", Json.num 1000), ("from", Json.str "dashboard")])]) :=
  ⟨by decide, by rfl,
    sensor_message_three_events_one_ack (fun _ => 1000) (some 1) [] []
      "home/livingroom/temperature" fields1 (by decide) (by rfl)⟩

/-- Claim C3: for every inbound message whose raw payload fails to parse,
`mqtt_on_message` emits zero RelayEvents, publishes nothing, and leaves
both `pending_publishes` and `latest` unchanged, without raising. -/
theorem malformed_payload_is_noop (clock : Nat → Nat)
    (publishMid : Option Nat) (latest : List (Json × Json))
    (pending : List (Nat × PendingPublish)) (topic : String) :
    (mqtt_on_message clock publishMid latest pending topic none).emitted = [] ∧
    (mqtt_on_message clock publishMid latest pending topic none).published = [] ∧
    (mqtt_on_message clock publishMid latest pending topic none).latest = latest ∧
    (mqtt_on_message clock publishMid latest pending topic none).pending = pending ∧
    (mqtt_on_message clock publishMid latest pending topic none).exn = none :=
  ⟨rfl, rfl, rfl, rfl, rfl⟩

theorem malformed_payload_is_noop_witness :
    (mqtt_on_message (fun _ => 0) none [] [] "home/entrance/door"
      none).emitted = [] ∧
    (mqtt_on_message (fun _ => 0) none [] [] "home/entrance/door"
      none).published = [] ∧
    (mqtt_on_message (fun _ => 0) none [] [] "home/entrance/door"
      none).latest = [] ∧
    (mqtt_on_message (fun _ => 0) none [] [] "home/entrance/door"
      none).pending = [] ∧
    (mqtt_on_message (fun _ => 0) none [] [] "home/entrance/door"
      none).exn = none :=
  malformed_payload_is_noop (fun _ => 0) none [] [] "home/entrance/door"

/-- Claim C5: `resolve` is idempotent in effect: once `on_publish` has run
for a handle (removing any entry), a second `on_publish` for the same
handle finds nothing, emits no duplicate confirmation event, and leaves
the map unchanged. (`pending_publishes` is a Python dict, so its keys are
duplicate-free.) -/
theorem resolve_idempotent (clock clock' : Nat → Nat)
    (pending : List (Nat × PendingPublish)) (mid : Nat)
    (hkeys : (pending.map Prod.fst).Nodup) :
    (popKey (on_publish clock pending mid).pending mid).1 = none ∧
    (on_publish clock' (on_publish clock pending mid).pending mid).emitted
      = [] ∧
    (on_publish clock' (on_publish clock pending mid).pending mid).pending
      = (on_publish clock pending mid).pending := by
  have h1 : (on_publish clock pending mid).pending = (popKey pending mid).2 :=
    on_publish_pending clock pending mid
  have h2 : mid ∉ ((on_publish clock pending mid).pending.map Prod.fst) := by
    rw [h1]
    exact popKey_key_not_mem pending mid hkeys
  have h3 : popKey (on_publish clock pending mid).pending mid =
      (none, (on_publish clock pending mid).pending) :=
    popKey_eq_of_not_mem _ mid h2
  have h4 := on_publish_of_popKey_none clock' _ _ mid h3
  exact ⟨by rw [h3], by rw [h4], by rw [h4]⟩

theorem resolve_idempotent_witness :
    (([(5, ({ topic := "ack/s7", payload := Json.null, ts := 0 } :
        PendingPublish))].map Prod.fst).Nodup) ∧
    ((popKey (on_publish (fun _ => 1)
        [(5, { topic := "ack/s7", payload := Json.null, ts := 0 })] 5).pending
        5).1 = none ∧
    (on_publish (fun _ => 2) (on_publish (fun _ => 1)
        [(5, { topic := "ack/s7", payload := Json.null, ts := 0 })] 5).pending
        5).emitted = [] ∧
    (on_publish (fun _ => 2) (on_publish (fun _ => 1)
        [(5, { topic := "ack/s7", payload := Json.null, ts := 0 })] 5).pending
        5).pending =
      (on_publish (fun _ => 1)
        [(5, { topic := "ack/s7", payload := Json.null, ts := 0 })] 5).pending) :=
  ⟨by simp,
    resolve_idempotent (fun _ => 1) (fun _ => 2)
      [(5, { topic := "ack/s7", payload := Json.null, ts := 0 })] 5 (by simp)⟩

/-- Claim C6: a confirmation for a handle that was never tracked resolves
to NotFound: `on_publish` emits no RelayEvent, leaves the pending map
unchanged, and raises no exception. -/
theorem untracked_confirmation_is_noop (clock : Nat → Nat)
    (pending : List (Nat × PendingPublish)) (mid : Nat)
    (h : mid ∉ pending.map Prod.fst) :
    (popKey pending mid).1 = none ∧
    (on_publish clock pending mid).emitted = [] ∧
    (on_publish clock pending mid).pending = pending ∧
    (on_publish clock pending mid).exn = none := by
  have h3 : popKey pending mid = (none, pending) :=
    popKey_eq_of_not_mem pending mid h
  have h4 := on_publish_of_popKey_none clock _ _ mid h3
  exact ⟨by rw [h3], by rw [h4], by rw [h4], by rw [h4]⟩

theorem untracked_confirmation_is_noop_witness :
    (7 ∉ (([] : List (Nat × PendingPublish)).map Prod.fst)) ∧
    ((popKey ([] : List (Nat × PendingPublish)) 7).1 = none ∧
    (on_publish (fun _ => 3) [] 7).emitted = [] ∧
    (on_publish (fun _ => 3) [] 7).pending = [] ∧
    (on_publish (fun _ => 3) [] 7).exn = none) :=
  ⟨by simp, untracked_confirmation_is_noop (fun _ => 3) [] 7 (by simp)⟩

/-- Claim C7: for every inbound message on an `ack/`-prefixed topic with a
parseable payload, `mqtt_on_message` emits exactly one RelayEvent with
direction broker->publisher and stops: it publishes no Acknowledgement and
changes no state. -/
theorem ack_topic_single_event (clock : Nat → Nat) (publishMid : Option Nat)
    (latest : List (Json × Json)) (pending : List (Nat × PendingPublish))
    (topic : String) (payload : Json)
    (hTopic : pyStartsWith topic "ack/" = true) :
    (mqtt_on_message clock publishMid latest pending topic
        (some payload)).emitted =
      [{ direction := "broker->publisher", topic := topic, payload := payload,
         ts := clock 0, subscriber := none, publisher := none, note := none }] ∧
    (mqtt_on_message clock publishMid latest pending topic
        (some payload)).published = [] ∧
    (mqtt_on_message clock publishMid latest pending topic
        (some payload)).latest = latest ∧
    (mqtt_on_message clock publishMid latest pending topic
        (some payload)).pending = pending ∧
    (mqtt_on_message clock publishMid latest pending topic
        (some payload)).exn = none := by
  simp [mqtt_on_message, classify, hTopic]

theorem ack_topic_single_event_witness :
    pyStartsWith "ack/s7" "ack/" = true ∧
    ((mqtt_on_message (fun _ => 4) none [] [] "ack/s7"
        (some (Json.obj [("origId", Json.str "a1")]))).emitted =
      [{ direction := "broker->publisher", topic := "ack/s7",
         payload := Json.obj [("origId", Json.str "a1")], ts := 4,
         subscriber := none, publisher := none, note := none }] ∧
    (mqtt_on_message (fun _ => 4) none [] [] "ack/s7"
        (some (Json.obj [("origId", Json.str "a1")]))).published = [] ∧
    (mqtt_on_message (fun _ => 4) none [] [] "ack/s7"
        (some (Json.obj [("origId", Json.str "a1")]))).latest = [] ∧
    (mqtt_on_message (fun _ => 4) none [] [] "ack/s7"
        (some (Json.obj [("origId", Json.str "a1")]))).pending = [] ∧
    (mqtt_on_message (fun _ => 4) none [] [] "ack/s7"
        (some (Json.obj [("origId", Json.str "a1")]))).exn = none) :=
  ⟨by decide,
    ack_topic_single_event (fun _ => 4) none [] [] "ack/s7"
      (Json.obj [("origId", Json.str "a1")]) (by decide)⟩

/-- Claim C8: classification is a pure total function of the topic string:
a topic is classified AckTopic exactly when it has the `ack/` prefix, and
SensorTopic exactly otherwise (so every unknown topic defaults to
SensorTopic); being a total Lean function, `classify` has no side effects
and no failure case. -/
theorem classify_prefix_rule (topic : String) :
    (classify topic = TopicClass.ackTopic ↔
      pyStartsWith topic "ack/" = true) ∧
    (classify topic = TopicClass.sensorTopic ↔
      pyStartsWith topic "ack/" = false) := by
  by_cases h : pyStartsWith topic "ack/" = true
  · simp [classify, h]
  · simp only [Bool.not_eq_true] at h
    simp [classify, h]

theorem classify_prefix_rule_witness :
    ((classify "ack/s7" = TopicClass.ackTopic ↔
        pyStartsWith "ack/s7" "ack/" = true) ∧
      (classify "ack/s7" = TopicClass.sensorTopic ↔
        pyStartsWith "ack/s7" "ack/" = false)) ∧
    ((classify "home/entrance/door" = TopicClass.ackTopic ↔
        pyStartsWith "home/entrance/door" "ack/" = true) ∧
      (classify "home/entrance/door" = TopicClass.sensorTopic ↔
        pyStartsWith "home/entrance/door" "ack/" = false)) :=
  ⟨classify_prefix_rule "ack/s7", classify_prefix_rule "home/entrance/door"⟩

/-- Claim C9: for every accepted SensorReading the Acknowledgement is
published on topic `ack/` ++ the payload's `sensor` field, with payload
`{origId: payload.get('id'), ts, from: "dashboard"}`; when `sensor` is
absent, `payload.get('sensor')` is `None` and the topic degenerates to
`ack/None`, with processing continuing without error. -/
theorem ack_topic_from_sensor_field (clock : Nat → Nat)
    (publishMid : Option Nat) (latest : List (Json × Json))
    (pending : List (Nat × PendingPublish)) (topic : String)
    (fields : List (String × Json))
    (hTopic : pyStartsWith topic "ack/" = false)
    (hSensor : hashable (dictGet fields "sensor") = true) :
    (mqtt_on_message clock publishMid latest pending topic
        (some (Json.obj fields))).published =
      [("ack/" ++ pyStr (dictGet fields "sensor"),
        Json.obj [("origId", dictGet fields "id"), ("ts", Json.num (clock 1)),
                  ("from", Json.str "dashboard")])] ∧
    (mqtt_on_message clock publishMid latest pending topic
        (some (Json.obj fields))).exn = none ∧
    (fields.lookup "sensor" = none →
      "ack/" ++ pyStr (dictGet fields "sensor") = "ack/None") := by
  refine ⟨?_, ?_, ?_⟩
  · simp [mqtt_on_message, classify, hTopic, hSensor]
  · simp [mqtt_on_message, classify, hTopic, hSensor]
  · intro h
    simp [dictGet, h, pyStr]

/-- The concrete reading with no `sensor` field used by the witnesses. -/
def fields2 : List (String × Json) := [("id", Json.str "b2")]

theorem ack_topic_from_sensor_field_witness :
    pyStartsWith "home/entrance/door" "ack/" = false ∧
    hashable (dictGet fields2 "sensor") = true ∧
    ((mqtt_on_message (fun _ => 5) (some 2) [] [] "home/entrance/door"
        (some (Json.obj fields2))).published =
      [("ack/" ++ pyStr (dictGet fields2 "sensor"),
        Json.obj [("origId", dictGet fields2 "id"), ("ts", Json.num 5),
                  ("from", Json.str "dashboard")])] ∧
    (mqtt_on_message (fun _ => 5) (some 2) [] [] "home/entrance/door"
        (some (Json.obj fields2))).exn = none ∧
    (fields2.lookup "sensor" = none →
      "ack/" ++ pyStr (dictGet fields2 "sensor") = "ack/None")) :=
  ⟨by decide, by rfl,
    ack_topic_from_sensor_field (fun _ => 5) (some 2) [] []
      "home/entrance/door" fields2 (by decide) (by rfl)⟩

/-- Claim C10: a valid-JSON but non-object payload on a sensor topic gets
the first two hop events enqueued and then raises (AttributeError at
`payload.get('sensor')`): no Acknowledgement is published, `latest` and
`pending_publishes` stay unchanged, and the emission is partial (two
events), not zero. -/
theorem non_object_payload_partial_emission (clock : Nat → Nat)
    (publishMid : Option Nat) (latest : List (Json × Json))
    (pending : List (Nat × PendingPublish)) (topic : String) (payload : Json)
    (hTopic : pyStartsWith topic "ack/" = false)
    (hObj : ∀ fields, payload ≠ Json.obj fields) :
    (mqtt_on_message clock publishMid latest pending topic
        (some payload)).emitted.map RelayEvent.direction =
      ["publisher->broker", "broker->subscriber"] ∧
    (mqtt_on_message clock publishMid latest pending topic
        (some payload)).exn = some "AttributeError" ∧
    (mqtt_on_message clock publishMid latest pending topic
        (some payload)).published = [] ∧
    (mqtt_on_message clock publishMid latest pending topic
        (some payload)).latest = latest ∧
    (mqtt_on_message clock publishMid latest pending topic
        (some payload)).pending = pending := by
  cases payload with
  | obj fields => exact absurd rfl (hObj fields)
  | null => simp [mqtt_on_message, classify, hTopic]
  | bool b => simp [mqtt_on_message, classify, hTopic]
  | num n => simp [mqtt_on_message, classify, hTopic]
  | str s => simp [mqtt_on_message, classify, hTopic]
  | arr xs => simp [mqtt_on_message, classify, hTopic]

theorem non_object_payload_partial_emission_witness :
    pyStartsWith "home/entrance/door" "ack/" = false ∧
    (∀ fields, Json.num 3 ≠ Json.obj fields) ∧
    ((mqtt_on_message (fun _ => 6) (some 4) [] [] "home/entrance/door"
        (some (Json.num 3))).emitted.map RelayEvent.direction =
      ["publisher->broker", "broker->subscriber"] ∧
    (mqtt_on_message (fun _ => 6) (some 4) [] [] "home/entrance/door"
        (some (Json.num 3))).exn = some "AttributeError" ∧
    (mqtt_on_message (fun _ => 6) (some 4) [] [] "home/entrance/door"
        (some (Json.num 3))).published = [] ∧
    (mqtt_on_message (fun _ => 6) (some 4) [] [] "home/entrance/door"
        (some (Json.num 3))).latest = [] ∧
    (mqtt_on_message (fun _ => 6) (some 4) [] [] "home/entrance/door"
        (some (Json.num 3))).pending = []) :=
  ⟨by decide, fun fields h => Json.noConfusion h,
    non_object_payload_partial_emission (fun _ => 6) (some 4) [] []
      "home/entrance/door" (Json.num 3) (by decide)
      (fun fields h => Json.noConfusion h)⟩

/-- Claim C4's failing input, evaluated: `pending_publishes` already holds
a live entry under handle 7 and the ack publish for a new reading returns
`info.mid = 7`. The assignment at dashboard.py line 80 silently replaces
the live entry: the old entry is gone, no exception (assert) is raised,
and the printed log lines are exactly the same as in the run where handle
7 was not yet tracked — nothing records the overwrite. -/
theorem track_overwrite_is_silent :
    (mqtt_on_message (fun _ => 9) (some 7) []
        [(7, { topic := "ack/old", payload := Json.null, ts := 0 })]
        "home/livingroom/humidity" (some (Json.obj fields1))).pending =
      [(7, { topic := "ack/s7",
             payload := Json.obj [("origId", Json.str "a1"),
               ("ts", Json.num 9), ("from", Json.str "dashboard")],
             ts := 9 })] ∧
    (mqtt_on_message (fun _ => 9) (some 7) []
        [(7, { topic := "ack/old", payload := Json.null, ts := 0 })]
        "home/livingroom/humidity" (some (Json.obj fields1))).exn = none ∧
    (mqtt_on_message (fun _ => 9) (some 7) []
        [(7, { topic := "ack/old", payload := Json.null, ts := 0 })]
        "home/livingroom/humidity" (some (Json.obj fields1))).logs =
      (mqtt_on_message (fun _ => 9) (some 7) [] []
        "home/livingroom/humidity" (some (Json.obj fields1))).logs :=
  ⟨rfl, rfl, rfl⟩

/-- The concrete event used in the shared-queue evidence. -/
def e0 : RelayEvent :=
  { direction := "publisher->broker", topic := "home/entrance/door",
    payload := Json.null, ts := 0, subscriber := none, publisher := none,
    note := none }

/-- Claim C2's failing input, evaluated: two viewer sessions (1 and 2) are
attached to `/stream` and one RelayEvent sits in the single shared
`event_q`. Session 1's `event_q.get()` consumes it; session 2 has received
nothing, and — the queue now being empty with no replay — no further
consumer step exists, so session 2 can never receive that event. The
event was delivered to exactly one of the two connected consumers. -/
theorem shared_queue_delivers_to_one_consumer :
    ConsumeStep ⟨[e0], []⟩ ⟨[], [(1, e0)]⟩ ∧
    sessionView [(1, e0)] 1 = [e0] ∧
    sessionView [(1, e0)] 2 = [] ∧
    ∀ s', ¬ ConsumeStep ⟨[], [(1, e0)]⟩ s' := by
  refine ⟨ConsumeStep.get 1 e0 [] [], rfl, rfl, ?_⟩
  intro s' h
  nomatch h

end Dashboard
